import Mathlib

/-!
Verification of the cognitive cycle of `metagpt/roles/assistant.py` (the
`Assistant` role): memory refinement, classification-response parsing,
routing/dispatch, and the decide/execute contract.

The embedding is shallow.  Async Python methods become pure Lean functions;
each oracle (LLM) call is a suspension point modelled by an `Option`-valued
field of an `Oracle` record (`none` = transport failure), and every cycle
function additionally returns the ordered list of oracle calls it issued, so
that "no oracle call happens" is a provable statement.  Python exceptions are
modelled by the `Outcome.fail` constructor; Python string truthiness
(`if not s`) is modelled by explicit emptiness tests.

External collaborators that are not part of the repository source under
verification (`BrainMemory`, `OpenAIGPTAPI.extract_info`, the actions and the
skill loader) are modelled from the specification, each marked
`Modelled from the spec:` in its doc comment.
-/

namespace Assistant

/-- The fixed enumeration used both as an utterance tag and as a
classification-result tag.  Modelled from the spec: `MessageType` lives in
`metagpt.memory.brain_memory`, which is outside the provided source. -/
inductive MessageType where
  | Talk
  | Problem
  | Solution
  | Skill
deriving DecidableEq

/-- Modelled from the spec: `BrainMemory` (Conversation Memory) is outside the
provided source.  We keep only the views and mutators the cycle uses:
`historyText` (concatenated history since the last checkpoint), `lastTalk`
(most recent unconsumed talk entry, or absent), a bounded `knowledge` excerpt,
the list of appended answer entries, and a counter of performed checkpoints
(so that a checkpoint is an observable mutation). -/
structure BrainMemory where
  historyText : String
  lastTalk : Option String
  knowledge : String
  answers : List String
  solutionCount : Nat
deriving DecidableEq

/-- Modelled from the spec: the checkpoint operation `move_to_solution`
archives/clears the log, so subsequent history text is empty and the talk
entry is consumed; the archive counter records that a checkpoint happened. -/
def BrainMemory.move_to_solution (m : BrainMemory) : BrainMemory :=
  { m with historyText := "", lastTalk := none, solutionCount := m.solutionCount + 1 }

/-- Modelled from the spec: `add_answer` appends an answer entry (always
succeeds). -/
def BrainMemory.add_answer (m : BrainMemory) (content : String) : BrainMemory :=
  { m with answers := m.answers ++ [content] }

/-- Modelled from the spec: `get_knowledge` is a bounded view of history used
for prompt injection; opaque to the cycle, so it is a plain field read. -/
def BrainMemory.get_knowledge (m : BrainMemory) : String :=
  m.knowledge

/-- A capability ("skill") as the router sees it: looked up by identifier,
carrying a name and a description (`SkillAction` is built from both). -/
structure Skill where
  name : String
  description : String
deriving DecidableEq

/-- The Capability Catalog interface (`SkillLoader`): an ordered
description→identifier list used to build the classification prompt, and an
identifier lookup used by the skill handler. -/
structure SkillCatalog where
  skillList : List (String × String)
  getSkill : String → Option Skill

/-- The PendingAction produced by a handler and stored as `self._rc.todo`.
`talkAction` records the constructor arguments of `TalkAction(talk=text,
knowledge=..., **kwargs)` (the `last_talk` keyword is part of `kwargs`);
`skillAction` records those of `SkillAction(skill=..., args=..., name=...,
desc=...)`. -/
inductive PendingAction where
  | talkAction (talk : String) (knowledge : String) (lastTalk : String)
  | skillAction (name : String) (description : String) (args : String)
deriving DecidableEq

/-- One oracle call, recorded in the order the cycle issues it. -/
inductive OracleCall where
  | getContextTitle (text : String) (maxWords : Nat)
  | isRelated (a : String) (b : String)
  | rewriteCall (sentence : String) (context : String)
  | aaskCall (prompt : String)
  | parseArgs (skillName : String) (lastTalk : String)
deriving DecidableEq

/-- The oracle interface (`self._llm` plus `ArgumentsParingAction.run`).
Each operation returns `none` on transport failure.  `parse_args` models the
argument-resolution step for a matched capability: the outer `Option` is
transport failure, the inner `Option` is `action.args is None`. -/
structure Oracle where
  get_context_title : String → Nat → Option String
  is_related : String → String → Option Bool
  rewrite : String → String → Option String
  aask : String → Option String
  parse_args : String → String → Option (Option String)

/-- The agent state the cycle mutates: its Conversation Memory and the
pending action slot `self._rc.todo` written by `add_to_do`. -/
structure AgentState where
  memory : BrainMemory
  todo : Option PendingAction
deriving DecidableEq

/-- Result of one (possibly failing) cycle computation: the returned value or
a propagated exception, the agent state afterwards, and the ordered oracle
calls issued. -/
inductive Outcome (α : Type) where
  | ok (value : α) (state : AgentState) (calls : List OracleCall)
  | fail (state : AgentState) (calls : List OracleCall)
deriving DecidableEq

/-- Does the outcome model a propagated exception? -/
def Outcome.isFail {α : Type} : Outcome α → Bool
  | .ok _ _ _ => false
  | .fail _ _ => true

/-- The agent state carried by an outcome. -/
def Outcome.stateOf {α : Type} : Outcome α → AgentState
  | .ok _ s _ => s
  | .fail s _ => s

/-- The oracle-call trace carried by an outcome. -/
def Outcome.callsOf {α : Type} : Outcome α → List OracleCall
  | .ok _ _ c => c
  | .fail _ c => c

/-! ### Response parsing (`extract_info`) -/

/-- Test `startsWith needle hay`: `needle` is a prefix of the character list
`hay`. -/
def startsWith : List Char → List Char → Bool
  | [], _ => true
  | _ :: _, [] => false
  | a :: as, b :: bs => a = b && startsWith as bs

/-- Test `containsSub needle hay`: `needle` occurs as a contiguous sublist of
`hay`. -/
def containsSub (needle : List Char) : List Char → Bool
  | [] => startsWith needle []
  | c :: cs => startsWith needle (c :: cs) || containsSub needle cs

/-- Python-style whitespace, for `str.strip()`. -/
def isSpaceChar (c : Char) : Bool :=
  c = ' ' || c = '\t' || c = '\n' || c = '\r'

/-- Drop leading whitespace characters. -/
def dropSpaces : List Char → List Char
  | [] => []
  | c :: cs => if isSpaceChar c then dropSpaces cs else c :: cs

/-- Strip whitespace from both ends (Python `str.strip()`). -/
def trimChars (cs : List Char) : List Char :=
  ((dropSpaces ((dropSpaces cs).reverse)).reverse)

/-- Python `str.strip()` on strings. -/
def trimStr (s : String) : String :=
  String.mk (trimChars s.toList)

/-- The `[SKILL]:` marker as a character list. -/
def skillMarker : List Char := "[SKILL]:".toList

/-- The `[SOLUTION]:` marker as a character list. -/
def solutionMarker : List Char := "[SOLUTION]:".toList

/-- The `[PROBLEM]:` marker as a character list. -/
def problemMarker : List Char := "[PROBLEM]:".toList

/-- The `[TALK]:` marker as a character list. -/
def talkMarker : List Char := "[TALK]:".toList

/-- If one of the four markers starts exactly here, return its tag and the
remainder after the marker.  No marker is a prefix of another, so the order of
the tests cannot matter. -/
def matchMarkerAt (cs : List Char) : Option (MessageType × List Char) :=
  if startsWith skillMarker cs then some (MessageType.Skill, cs.drop skillMarker.length)
  else if startsWith solutionMarker cs then
    some (MessageType.Solution, cs.drop solutionMarker.length)
  else if startsWith problemMarker cs then
    some (MessageType.Problem, cs.drop problemMarker.length)
  else if startsWith talkMarker cs then some (MessageType.Talk, cs.drop talkMarker.length)
  else none

/-- Scan left to right for the first position where a recognized marker
starts. -/
def scanMarker : List Char → Option (MessageType × List Char)
  | [] => none
  | c :: cs =>
    match matchMarkerAt (c :: cs) with
    | some r => some r
    | none => scanMarker cs

/-- Modelled from the spec: `OpenAIGPTAPI.extract_info` is outside the
provided source.  Per §4.3 of the spec: scan for the first recognized marker
(case-sensitively); the tag is the marker's type and the payload is the
trimmed remainder after the marker; if no marker is recognized the tag
defaults to `Talk` and the payload is the entire trimmed input. -/
def extract_info (input_string : String) : MessageType × String :=
  match scanMarker input_string.toList with
  | some (tag, rest) => (tag, String.mk (trimChars rest))
  | none => (MessageType.Talk, trimStr input_string)

/-! ### Handlers and routing (`talk_handler`, `skill_handler`, `_plan`) -/

/-- Source `Assistant.talk_handler`: builds
`TalkAction(talk=text, knowledge=self.memory.get_knowledge(), **kwargs)` with
`last_talk` in `kwargs`, stores it via `add_to_do`, and returns `True`. -/
def talk_handler (s : AgentState) (text : String) (last_talk : String) : Outcome Bool :=
  Outcome.ok true
    { s with todo := some (PendingAction.talkAction text (s.memory.get_knowledge) last_talk) }
    []

/-- Source `Assistant.skill_handler`: look up the payload in the catalog; on a miss
fall back to the talk handler on the original `last_talk`; otherwise run the
argument-resolution step and either fall back (args `None`) or store a
`SkillAction`. -/
def skill_handler (o : Oracle) (cat : SkillCatalog) (s : AgentState)
    (text : String) (last_talk : String) : Outcome Bool :=
  match cat.getSkill text with
  | none => talk_handler s last_talk last_talk
  | some sk =>
    match o.parse_args sk.name last_talk with
    | none => Outcome.fail s [OracleCall.parseArgs sk.name last_talk]
    | some none =>
      match talk_handler s last_talk last_talk with
      | Outcome.ok b s2 c2 => Outcome.ok b s2 (OracleCall.parseArgs sk.name last_talk :: c2)
      | Outcome.fail s2 c2 => Outcome.fail s2 (OracleCall.parseArgs sk.name last_talk :: c2)
    | some (some args) =>
      Outcome.ok true
        { s with todo := some (PendingAction.skillAction sk.name sk.description args) }
        [OracleCall.parseArgs sk.name last_talk]

/-- Source `Assistant._plan`: parse the oracle response, then dispatch through the
handlers table `{Talk ↦ talk_handler, Problem ↦ talk_handler,
Skill ↦ skill_handler}` with `talk_handler` as the `dict.get` default. -/
def plan (o : Oracle) (cat : SkillCatalog) (s : AgentState)
    (rsp : String) (last_talk : String) : Outcome Bool :=
  let parsed := extract_info rsp
  match parsed.1 with
  | MessageType.Talk => talk_handler s parsed.2 last_talk
  | MessageType.Problem => talk_handler s parsed.2 last_talk
  | MessageType.Skill => skill_handler o cat s parsed.2 last_talk
  | _ => talk_handler s parsed.2 last_talk

/-! ### Memory refinement and the think phase -/

/-- Source `Assistant.refine_memory`: read `history_text` and `last_talk`; absent
talk is terminal; empty history short-circuits; otherwise summarize the
history, check relatedness (skipped when the talk text is falsy), and either
rewrite in context or checkpoint and keep the original text. -/
def refine_memory (o : Oracle) (s : AgentState) : Outcome (Option String) :=
  let history_text := s.memory.historyText
  match s.memory.lastTalk with
  | none => Outcome.ok none s []
  | some last_talk =>
    if history_text = "" then Outcome.ok (some last_talk) s []
    else
      match o.get_context_title history_text 20 with
      | none => Outcome.fail s [OracleCall.getContextTitle history_text 20]
      | some history_summary =>
        if last_talk = "" then
          Outcome.ok (some last_talk)
            { s with memory := s.memory.move_to_solution }
            [OracleCall.getContextTitle history_text 20]
        else
          match o.is_related last_talk history_summary with
          | none =>
            Outcome.fail s
              [OracleCall.getContextTitle history_text 20,
               OracleCall.isRelated last_talk history_summary]
          | some true =>
            match o.rewrite last_talk history_text with
            | none =>
              Outcome.fail s
                [OracleCall.getContextTitle history_text 20,
                 OracleCall.isRelated last_talk history_summary,
                 OracleCall.rewriteCall last_talk history_text]
            | some rewritten =>
              Outcome.ok (some rewritten) s
                [OracleCall.getContextTitle history_text 20,
                 OracleCall.isRelated last_talk history_summary,
                 OracleCall.rewriteCall last_talk history_text]
          | some false =>
            Outcome.ok (some last_talk)
              { s with memory := s.memory.move_to_solution }
              [OracleCall.getContextTitle history_text 20,
               OracleCall.isRelated last_talk history_summary]

/-- The classification prompt built in `Assistant.think`, literally as the
source concatenates it. -/
def build_prompt (last_talk : String) (skills : List (String × String)) : String :=
  let p0 := "Refer to this sentence:\n " ++ last_talk ++ "\n"
  let p1 := skills.foldl
    (fun acc ds =>
      acc ++ "If want you to do " ++ ds.1 ++ ", return `[SKILL]: " ++ ds.2 ++
        "` brief and clear. For instance: [SKILL]: text_to_image\n")
    p0
  p1 ++
    "If the preceding text presents a complete question and solution, rewrite and return `[SOLUTION]: {problem}` brief and clear. For instance: [SOLUTION]: Solution for distributing watermelon\n" ++
    "If the preceding text presents an unresolved issue and its corresponding discussion, rewrite and return `[PROBLEM]: {problem}` brief and clear. For instance: [PROBLEM]: How to distribute watermelon?\n" ++
    "Otherwise, rewrite and return `[TALK]: {talk}` brief and clear. For instance: [TALK]: distribute watermelon"

/-- Source `Assistant.think`: refine memory; a falsy refined utterance (`None` or
the empty string, per Python truthiness) returns `False`; otherwise build the
classification prompt, submit it, and route the parsed response. -/
def think (o : Oracle) (cat : SkillCatalog) (s : AgentState) : Outcome Bool :=
  match refine_memory o s with
  | Outcome.fail s1 c1 => Outcome.fail s1 c1
  | Outcome.ok r s1 c1 =>
    match r with
    | none => Outcome.ok false s1 c1
    | some last_talk =>
      if last_talk = "" then Outcome.ok false s1 c1
      else
        let prompt := build_prompt last_talk cat.skillList
        match o.aask prompt with
        | none => Outcome.fail s1 (c1 ++ [OracleCall.aaskCall prompt])
        | some rsp =>
          match plan o cat s1 rsp last_talk with
          | Outcome.ok b s2 c2 => Outcome.ok b s2 (c1 ++ OracleCall.aaskCall prompt :: c2)
          | Outcome.fail s2 c2 => Outcome.fail s2 (c1 ++ OracleCall.aaskCall prompt :: c2)

/-! ### The execute phase (`act`) and memory restore (`load_memory`) -/

/-- What `self._rc.todo.run(...)` can return, as `act` inspects it: the falsy
`None`, a plain string, or a structured `ActionOutput` with content and
instruct content. -/
inductive RunResult where
  | noResult
  | strResult (s : String)
  | outResult (content : String) (instruct : String)
deriving DecidableEq

/-- What `act` hands back to the caller: `none` models Python `None`;
otherwise the content together with the optional instruct content of the
returned `ActionOutput`. -/
structure ActOut where
  output : Option (String × Option String)
  memory : BrainMemory
deriving DecidableEq

/-- Source `Assistant.act`: run the pending action; a falsy result (`None`, or the
empty string, by Python truthiness) returns `None` without touching memory;
otherwise wrap the result, append it to memory as an answer entry, and return
it. -/
def act (s : AgentState) (result : RunResult) : ActOut :=
  match result with
  | RunResult.noResult => { output := none, memory := s.memory }
  | RunResult.strResult str =>
    if str = "" then { output := none, memory := s.memory }
    else { output := some (str, none), memory := s.memory.add_answer str }
  | RunResult.outResult content instruct =>
    { output := some (content, some instruct), memory := s.memory.add_answer content }

/-- Source `Assistant.load_memory`: rebuild `BrainMemory` from a serialized
snapshot; construction failure (any exception, modelled by the `decode`
collaborator returning `none`) is caught, logged, and leaves the prior memory
in place.  The function is total: no exception escapes to the caller. -/
def load_memory {J : Type} (decode : J → Option BrainMemory)
    (m : BrainMemory) (jsn : J) : BrainMemory :=
  match decode jsn with
  | some m2 => m2
  | none => m

/-! ### Concrete fixtures used to evaluate the definitions on closed inputs -/

/-- An oracle whose every operation fails at the transport level. -/
def oracleSilent : Oracle :=
  { get_context_title := fun _ _ => none
    is_related := fun _ _ => none
    rewrite := fun _ _ => none
    aask := fun _ => none
    parse_args := fun _ _ => none }

/-- An oracle that summarizes, judges the talk related, and rewrites it. -/
def oracleRelated : Oracle :=
  { get_context_title := fun _ _ => some "title"
    is_related := fun _ _ => some true
    rewrite := fun _ _ => some "merged question"
    aask := fun _ => some "[TALK]: hi"
    parse_args := fun _ _ => some (some "args") }

/-- An oracle that summarizes and judges the talk unrelated. -/
def oracleUnrelated : Oracle :=
  { get_context_title := fun _ _ => some "title"
    is_related := fun _ _ => some false
    rewrite := fun _ _ => some "merged question"
    aask := fun _ => some "[TALK]: hi"
    parse_args := fun _ _ => some (some "args") }

/-- An oracle whose classification answer carries the Solution marker; the
refinement helpers all succeed. -/
def oracleSolution : Oracle :=
  { get_context_title := fun _ _ => some "title"
    is_related := fun _ _ => some true
    rewrite := fun _ _ => some "merged question"
    aask := fun _ => some "[SOLUTION]: done"
    parse_args := fun _ _ => some (some "args") }

/-- An oracle that completes refinement, judges the talk unrelated (hence
checkpoints memory), and then fails at the classification call. -/
def oracleCheckpointThenFail : Oracle :=
  { get_context_title := fun _ _ => some "title"
    is_related := fun _ _ => some false
    rewrite := fun _ _ => some "merged question"
    aask := fun _ => none
    parse_args := fun _ _ => some (some "args") }

/-- An oracle whose argument-resolution step reports `args is None`. -/
def oracleArgsAbsent : Oracle :=
  { get_context_title := fun _ _ => some "title"
    is_related := fun _ _ => some true
    rewrite := fun _ _ => some "merged question"
    aask := fun _ => some "[SKILL]: text_to_image"
    parse_args := fun _ _ => some none }

/-- An empty capability catalog. -/
def catEmpty : SkillCatalog :=
  { skillList := [], getSkill := fun _ => none }

/-- A one-entry catalog exposing the `text_to_image` capability. -/
def catImage : SkillCatalog :=
  { skillList := [("draw an image", "text_to_image")]
    getSkill := fun name =>
      if name = "text_to_image" then some { name := "text_to_image", description := "draws" }
      else none }

/-- A state with no unconsumed talk entry. -/
def stAbsent : AgentState :=
  { memory := { historyText := "old history", lastTalk := none, knowledge := "know"
                answers := [], solutionCount := 0 }
    todo := none }

/-- A fresh-conversation state: empty history, one unconsumed talk entry. -/
def stFresh : AgentState :=
  { memory := { historyText := "", lastTalk := some "what is apple", knowledge := "know"
                answers := [], solutionCount := 0 }
    todo := none }

/-- A state with non-empty history and an unconsumed talk entry. -/
def stHistory : AgentState :=
  { memory := { historyText := "old history", lastTalk := some "new question"
                knowledge := "know", answers := [], solutionCount := 0 }
    todo := none }

/-! ### Claims -/

/-- C2: if Conversation Memory has no unconsumed talk entry, `refine_memory`
returns the absent marker with no oracle call, and `think` returns `false`
with an empty oracle-call trace — no classification prompt is submitted and
the state is untouched. -/
theorem think_absent_terminates (o : Oracle) (cat : SkillCatalog) (s : AgentState)
    (h : s.memory.lastTalk = none) :
    refine_memory o s = Outcome.ok none s [] ∧
    think o cat s = Outcome.ok false s [] := by
  have h1 : refine_memory o s = Outcome.ok none s [] := by
    unfold refine_memory
    rw [h]
  refine ⟨h1, ?_⟩
  unfold think
  rw [h1]

/-- Witness for C2 at a concrete state with no unconsumed talk entry. -/
theorem think_absent_terminates_witness :
    refine_memory oracleSilent stAbsent = Outcome.ok none stAbsent [] ∧
    think oracleSilent catEmpty stAbsent = Outcome.ok false stAbsent [] :=
  think_absent_terminates oracleSilent catEmpty stAbsent rfl

/-- C4: if the history text is empty at the start of a cycle, the refined
utterance is the raw last-talk text exactly and the refinement issues no
oracle call (empty trace): no summary, relatedness, or rewrite call. -/
theorem refine_fresh_shortcut (o : Oracle) (s : AgentState) (lt : String)
    (h1 : s.memory.lastTalk = some lt) (h2 : s.memory.historyText = "") :
    refine_memory o s = Outcome.ok (some lt) s [] := by
  unfold refine_memory
  rw [h1, h2]
  simp

/-- Witness for C4 at a concrete fresh-conversation state. -/
theorem refine_fresh_shortcut_witness :
    refine_memory oracleSilent stFresh = Outcome.ok (some "what is apple") stFresh [] :=
  refine_fresh_shortcut oracleSilent stFresh "what is apple" rfl rfl

/-- C3: during refinement with non-empty history (and a truthy last-talk
text, which Python requires before consulting the oracle), a successful
summary followed by a positive relatedness check makes the refined utterance
the oracle rewrite of the last-talk text in light of the history, with no
memory mutation; a negative relatedness check checkpoints memory and keeps
the original last-talk text unmodified. -/
theorem refine_related_branches (o : Oracle) (s : AgentState) (lt summary : String)
    (h1 : s.memory.lastTalk = some lt) (h2 : s.memory.historyText ≠ "")
    (h3 : lt ≠ "")
    (h4 : o.get_context_title s.memory.historyText 20 = some summary) :
    (∀ rewritten, o.is_related lt summary = some true →
      o.rewrite lt s.memory.historyText = some rewritten →
      refine_memory o s = Outcome.ok (some rewritten) s
        [OracleCall.getContextTitle s.memory.historyText 20,
         OracleCall.isRelated lt summary,
         OracleCall.rewriteCall lt s.memory.historyText]) ∧
    (o.is_related lt summary = some false →
      refine_memory o s = Outcome.ok (some lt)
        { s with memory := s.memory.move_to_solution }
        [OracleCall.getContextTitle s.memory.historyText 20,
         OracleCall.isRelated lt summary]) := by
  constructor
  · intro rewritten hrel hrw
    unfold refine_memory
    rw [h1]
    simp [h2, h4, h3, hrel, hrw]
  · intro hrel
    unfold refine_memory
    rw [h1]
    simp [h2, h4, h3, hrel]

/-- Witness for C3: both relatedness outcomes evaluated at a concrete state
with non-empty history. -/
theorem refine_related_branches_witness :
    refine_memory oracleRelated stHistory = Outcome.ok (some "merged question") stHistory
      [OracleCall.getContextTitle "old history" 20,
       OracleCall.isRelated "new question" "title",
       OracleCall.rewriteCall "new question" "old history"] ∧
    refine_memory oracleUnrelated stHistory = Outcome.ok (some "new question")
      { stHistory with memory := stHistory.memory.move_to_solution }
      [OracleCall.getContextTitle "old history" 20,
       OracleCall.isRelated "new question" "title"] :=
  ⟨(refine_related_branches oracleRelated stHistory "new question" "title" rfl
      (by decide) (by decide) rfl).1 "merged question" rfl rfl,
   (refine_related_branches oracleUnrelated stHistory "new question" "title" rfl
      (by decide) (by decide) rfl).2 rfl⟩

/-- When none of the four markers starts at this position, the position
matcher yields nothing. -/
theorem matchMarkerAt_eq_none (cs : List Char)
    (h1 : startsWith skillMarker cs = false)
    (h2 : startsWith solutionMarker cs = false)
    (h3 : startsWith problemMarker cs = false)
    (h4 : startsWith talkMarker cs = false) :
    matchMarkerAt cs = none := by
  unfold matchMarkerAt
  simp [h1, h2, h3, h4]

/-- When none of the four markers occurs anywhere in the character list, the
scan finds no marker. -/
theorem scanMarker_eq_none (cs : List Char)
    (h1 : containsSub skillMarker cs = false)
    (h2 : containsSub solutionMarker cs = false)
    (h3 : containsSub problemMarker cs = false)
    (h4 : containsSub talkMarker cs = false) :
    scanMarker cs = none := by
  induction cs with
  | nil => rfl
  | cons c cs ih =>
    rw [containsSub] at h1 h2 h3 h4
    simp only [Bool.or_eq_false_iff] at h1 h2 h3 h4
    have hm : matchMarkerAt (c :: cs) = none :=
      matchMarkerAt_eq_none (c :: cs) h1.1 h2.1 h3.1 h4.1
    unfold scanMarker
    rw [hm]
    exact ih h1.2 h2.2 h3.2 h4.2

/-- C7: an oracle classification output containing none of the four
recognized markers parses to tag `Talk` with payload the entire trimmed input
verbatim; `extract_info` is total, so malformed oracle output never aborts
the cycle. -/
theorem extract_no_marker_defaults_to_talk (s : String)
    (h1 : containsSub skillMarker s.toList = false)
    (h2 : containsSub solutionMarker s.toList = false)
    (h3 : containsSub problemMarker s.toList = false)
    (h4 : containsSub talkMarker s.toList = false) :
    extract_info s = (MessageType.Talk, trimStr s) := by
  unfold extract_info
  rw [scanMarker_eq_none s.toList h1 h2 h3 h4]

/-- Witness for C7 at a concrete marker-free oracle output. -/
theorem extract_no_marker_defaults_to_talk_witness :
    extract_info "  sure, happy to help  " =
      (MessageType.Talk, trimStr "  sure, happy to help  ") :=
  extract_no_marker_defaults_to_talk "  sure, happy to help  "
    (by decide) (by decide) (by decide) (by decide)

/-- C8: the execute phase.  A falsy run result — Python `None`, or the empty
string — makes `act` return the empty result and append nothing to memory;
any other result is appended to memory as an answer entry and returned to the
caller (a plain string is wrapped, a structured output passes through). -/
theorem act_appends_iff_result (s : AgentState) :
    act s RunResult.noResult = { output := none, memory := s.memory } ∧
    act s (RunResult.strResult "") = { output := none, memory := s.memory } ∧
    (∀ str, str ≠ "" → act s (RunResult.strResult str) =
      { output := some (str, none), memory := s.memory.add_answer str }) ∧
    (∀ content instruct, act s (RunResult.outResult content instruct) =
      { output := some (content, some instruct)
        memory := s.memory.add_answer content }) := by
  refine ⟨rfl, rfl, ?_, fun _ _ => rfl⟩
  intro str hstr
  unfold act
  simp [hstr]

/-- Witness for C8 at concrete run results. -/
theorem act_appends_iff_result_witness :
    act stFresh RunResult.noResult = { output := none, memory := stFresh.memory } ∧
    act stFresh (RunResult.strResult "an answer") =
      { output := some ("an answer", none)
        memory := stFresh.memory.add_answer "an answer" } :=
  ⟨(act_appends_iff_result stFresh).1,
   (act_appends_iff_result stFresh).2.2.1 "an answer" (by decide)⟩

/-- C9: restoring Conversation Memory from a serialized snapshot is total —
the construction failure of the external `BrainMemory(**jsn)` call is caught,
so no exception reaches the caller — and on malformed input (decoder reports
failure) the prior memory state is left unchanged; on well-formed input the
decoded memory replaces it. -/
theorem load_memory_never_raises {J : Type} (decode : J → Option BrainMemory)
    (m : BrainMemory) (jsn : J) :
    (decode jsn = none → load_memory decode m jsn = m) ∧
    (∀ m2, decode jsn = some m2 → load_memory decode m jsn = m2) := by
  constructor
  · intro h
    unfold load_memory
    rw [h]
  · intro m2 h
    unfold load_memory
    rw [h]

/-- Witness for C9: a malformed snapshot leaves the concrete prior memory in
place. -/
theorem load_memory_never_raises_witness :
    load_memory (fun _ : Nat => (none : Option BrainMemory)) stFresh.memory 0 =
      stFresh.memory :=
  (load_memory_never_raises (fun _ : Nat => none) stFresh.memory 0).1 rfl

/-- C5: the skill handler. On a catalog miss, or when the argument resolver
reports absent arguments, it falls back to the talk handler applied to the
original last-talk text — producing the very PendingAction that directly
classifying the last-talk text as Talk would produce — and in every branch it
returns `true`; only a transport failure of the resolver (an oracle failure,
outside this claim) can escape. -/
theorem skill_handler_fallbacks (o : Oracle) (cat : SkillCatalog) (s : AgentState)
    (text lt : String) :
    (cat.getSkill text = none →
      skill_handler o cat s text lt = talk_handler s lt lt ∧
      skill_handler o cat s text lt =
        Outcome.ok true
          { s with todo := some (PendingAction.talkAction lt s.memory.get_knowledge lt) }
          []) ∧
    (∀ sk, cat.getSkill text = some sk → o.parse_args sk.name lt = some none →
      skill_handler o cat s text lt =
        Outcome.ok true
          { s with todo := some (PendingAction.talkAction lt s.memory.get_knowledge lt) }
          [OracleCall.parseArgs sk.name lt]) ∧
    (∀ sk args, cat.getSkill text = some sk → o.parse_args sk.name lt = some (some args) →
      skill_handler o cat s text lt =
        Outcome.ok true
          { s with todo := some (PendingAction.skillAction sk.name sk.description args) }
          [OracleCall.parseArgs sk.name lt]) := by
  refine ⟨?_, ?_, ?_⟩
  · intro h
    simp only [skill_handler, h]
    exact ⟨trivial, rfl⟩
  · intro sk hsk hargs
    simp only [skill_handler, hsk, hargs, talk_handler]
  · intro sk args hsk hargs
    simp only [skill_handler, hsk, hargs]

/-- Witness for C5: the catalog-miss fallback, the absent-arguments fallback,
and the successful skill invocation, each at concrete inputs. -/
theorem skill_handler_fallbacks_witness :
    skill_handler oracleRelated catEmpty stFresh "text_to_image" "what is apple" =
      talk_handler stFresh "what is apple" "what is apple" ∧
    skill_handler oracleArgsAbsent catImage stFresh "text_to_image" "what is apple" =
      Outcome.ok true
        { stFresh with todo := some (PendingAction.talkAction "what is apple"
              stFresh.memory.get_knowledge "what is apple") }
        [OracleCall.parseArgs "text_to_image" "what is apple"] ∧
    skill_handler oracleRelated catImage stFresh "text_to_image" "what is apple" =
      Outcome.ok true
        { stFresh with todo := some (PendingAction.skillAction "text_to_image" "draws" "args") }
        [OracleCall.parseArgs "text_to_image" "what is apple"] :=
  ⟨((skill_handler_fallbacks oracleRelated catEmpty stFresh "text_to_image" "what is apple").1
      rfl).1,
   (skill_handler_fallbacks oracleArgsAbsent catImage stFresh "text_to_image" "what is apple").2.1
      { name := "text_to_image", description := "draws" } (by decide) rfl,
   (skill_handler_fallbacks oracleRelated catImage stFresh "text_to_image" "what is apple").2.2
      { name := "text_to_image", description := "draws" } "args" (by decide) rfl⟩

/-- C10: any parsed tag outside `{Talk, Problem, Skill}` — in this
enumeration, exactly the `Solution` tag — falls through `dict.get` to the
default talk handler, which stores a talk PendingAction on the classification
payload and reports `true`. -/
theorem plan_default_arm_talks (o : Oracle) (cat : SkillCatalog) (s : AgentState)
    (rsp lt : String)
    (h1 : (extract_info rsp).1 ≠ MessageType.Talk)
    (h2 : (extract_info rsp).1 ≠ MessageType.Problem)
    (h3 : (extract_info rsp).1 ≠ MessageType.Skill) :
    plan o cat s rsp lt =
      Outcome.ok true
        { s with todo := some (PendingAction.talkAction (extract_info rsp).2
              s.memory.get_knowledge lt) }
        [] := by
  rcases h : extract_info rsp with ⟨tag, text⟩
  rw [h] at h1 h2 h3
  cases tag with
  | Talk => exact absurd rfl h1
  | Problem => exact absurd rfl h2
  | Skill => exact absurd rfl h3
  | Solution =>
    unfold plan
    rw [h]
    rfl

/-- Witness for C10: a Solution-tagged response is dispatched to the default
talk handler with the Solution payload as reply text. -/
theorem plan_default_arm_talks_witness :
    plan oracleSolution catEmpty stFresh "[SOLUTION]: done" "what is apple" =
      Outcome.ok true
        { stFresh with todo := some (PendingAction.talkAction
            (extract_info "[SOLUTION]: done").2 stFresh.memory.get_knowledge "what is apple") }
        [] ∧
    (extract_info "[SOLUTION]: done").2 = "done" :=
  ⟨plan_default_arm_talks oracleSolution catEmpty stFresh "[SOLUTION]: done" "what is apple"
      (by decide) (by decide) (by decide),
   by decide⟩

/-- C1 counterexample: a full cycle whose oracle classification carries the
Solution marker. The response parses to the Solution tag, yet `think`
dispatches it through the Router to the (default) talk handler, storing a
talk PendingAction on the Solution payload — it is not intercepted during
memory refinement (memory is unchanged) and it does reach the Router. -/
theorem solution_reaches_router_counterexample :
    (extract_info "[SOLUTION]: done").1 = MessageType.Solution ∧
    think oracleSolution catEmpty stFresh =
      Outcome.ok true
        { stFresh with todo := some (PendingAction.talkAction "done" "know" "what is apple") }
        [OracleCall.aaskCall (build_prompt "what is apple" [])] := by
  exact ⟨by decide, rfl⟩

/-- C1 (amended): every parsed classification is routed by `_plan` through
the handlers table: the Skill tag to the skill handler, and every other tag —
Talk, Problem, and, via the `dict.get` default arm, Solution as well — to the
talk handler with the payload as reply text.  A Solution-tagged response
therefore does reach the Router; nothing intercepts it upstream. -/
theorem plan_routing_table (o : Oracle) (cat : SkillCatalog) (s : AgentState)
    (rsp lt : String) :
    plan o cat s rsp lt =
      if (extract_info rsp).1 = MessageType.Skill
      then skill_handler o cat s (extract_info rsp).2 lt
      else Outcome.ok true
        { s with todo := some (PendingAction.talkAction (extract_info rsp).2
              s.memory.get_knowledge lt) }
        [] := by
  rcases h : extract_info rsp with ⟨tag, text⟩
  unfold plan
  rw [h]
  cases tag <;> rfl

/-- Refinement leaves the state unchanged or checkpoints the memory; those
are the only two states it can hand on. -/
theorem refine_memory_state_cases (o : Oracle) (s : AgentState) :
    (refine_memory o s).stateOf = s ∨
    (refine_memory o s).stateOf = { s with memory := s.memory.move_to_solution } := by
  unfold refine_memory
  dsimp only
  repeat first
    | (left; rfl)
    | (right; rfl)
    | split

/-- When refinement fails (an oracle call could not complete), the state it
reports is the untouched input state. -/
theorem refine_memory_fail_state (o : Oracle) (s s2 : AgentState)
    (c : List OracleCall) (h : refine_memory o s = Outcome.fail s2 c) :
    s2 = s := by
  unfold refine_memory at h
  dsimp only at h
  repeat' split at h
  all_goals cases h
  all_goals rfl

/-- When routing fails (the argument-resolution call could not complete), the
state it reports is the untouched input state: no handler mutates memory, and
the pending-action slot is written only on success. -/
theorem plan_fail_state (o : Oracle) (cat : SkillCatalog) (s : AgentState)
    (rsp lt : String) (s2 : AgentState) (c : List OracleCall)
    (h : plan o cat s rsp lt = Outcome.fail s2 c) :
    s2 = s := by
  unfold plan skill_handler talk_handler at h
  dsimp only at h
  repeat' split at h
  all_goals cases h
  all_goals rfl

/-- C6 counterexample: a cycle that aborts mid-way with memory already
mutated.  The oracle summarizes and judges the talk unrelated, so refinement
checkpoints memory; the subsequent classification call fails, so `think`
aborts — yet the reported state carries the checkpointed memory, which
differs from the initial memory. -/
theorem think_abort_mutated_counterexample :
    think oracleCheckpointThenFail catEmpty stHistory =
      Outcome.fail { stHistory with memory := stHistory.memory.move_to_solution }
        [OracleCall.getContextTitle "old history" 20,
         OracleCall.isRelated "new question" "title",
         OracleCall.aaskCall (build_prompt "new question" [])] ∧
    stHistory.memory.move_to_solution ≠ stHistory.memory :=
  ⟨rfl, by decide⟩

/-- C6 (amended): when a cycle iteration aborts because an oracle call cannot
complete, the only memory mutation that can already have happened is the
refinement checkpoint: the state `think` reports on failure is either the
initial state unchanged, or the initial state with its memory checkpointed by
`move_to_solution` (which occurs when the relatedness check returned false
before the abort); in particular no answer entry is ever appended by an
aborted iteration, and the pending-action slot is untouched. -/
theorem think_abort_preserves_memory (o : Oracle) (cat : SkillCatalog)
    (s s2 : AgentState) (c : List OracleCall)
    (h : think o cat s = Outcome.fail s2 c) :
    s2 = s ∨ s2 = { s with memory := s.memory.move_to_solution } := by
  unfold think at h
  rcases hr : refine_memory o s with ⟨v, s1, c1⟩ | ⟨s1, c1⟩
  · rw [hr] at h
    have hs1 : s1 = s ∨ s1 = { s with memory := s.memory.move_to_solution } := by
      have hcases := refine_memory_state_cases o s
      rw [hr] at hcases
      exact hcases
    rcases v with _ | lt
    · dsimp only at h
      exact absurd h (by simp)
    · dsimp only at h
      by_cases hlt : lt = ""
      · rw [if_pos hlt] at h
        exact absurd h (by simp)
      · rw [if_neg hlt] at h
        rcases ha : o.aask (build_prompt lt cat.skillList) with _ | rsp
        · rw [ha] at h
          dsimp only at h
          injection h with hS hC
          rw [← hS]
          exact hs1
        · rw [ha] at h
          dsimp only at h
          rcases hp : plan o cat s1 rsp lt with ⟨b, s3, c3⟩ | ⟨s3, c3⟩
          · rw [hp] at h
            exact absurd h (by simp)
          · rw [hp] at h
            injection h with hS hC
            have h31 : s3 = s1 := plan_fail_state o cat s1 rsp lt s3 c3 hp
            rw [← hS, h31]
            exact hs1
  · rw [hr] at h
    dsimp only at h
    injection h with hS hC
    left
    rw [← hS]
    exact refine_memory_fail_state o s s1 c1 hr

/-- Witness for the amended C6: a concrete aborted iteration (summary call
fails immediately) whose reported state is the unchanged initial state. -/
theorem think_abort_preserves_memory_witness :
    stHistory = stHistory ∨
    stHistory = { stHistory with memory := stHistory.memory.move_to_solution } :=
  think_abort_preserves_memory oracleSilent catEmpty stHistory stHistory
    [OracleCall.getContextTitle "old history" 20] rfl

end Assistant
